import Mathlib

/-!
Verification of the financial projection engine of the Russian mortgage
calculator.  The engine is a set of pure numeric functions over JavaScript
numbers; we embed them over the exact rationals, with month counts as
natural numbers and the JavaScript rounding function modelled explicitly.
-/

attribute [local semireducible] Rat.mul Rat.add Rat.inv Rat.sub

/-- JavaScript Math.round: round to nearest integer, half toward positive
infinity. -/
def jsRound (x : ℚ) : ℤ := (x + 1/2).floor

/-- The CalculatorInputs record of the source. -/
structure CalculatorInputs where
  apartmentPrice : ℚ
  priceGrowthRate : ℚ
  salary : ℚ
  salaryGrowthRate : ℚ
  monthlySavings : ℚ
  initialSavings : ℚ
  savingsInterestRate : ℚ
  mortgageRate : ℚ
  downPaymentPercent : ℚ
  mortgageTerm : ℕ

/-- One row of the monthly projection table (all monetary fields rounded by
the source with Math.round). -/
structure MonthlyProjection where
  month : ℕ
  apartmentPrice : ℤ
  totalSavings : ℤ
  monthlySaving : ℤ
  downPaymentTarget : ℤ
  surplus : ℤ
  deriving DecidableEq, Inhabited

/-- The scalar part of the CalculationResults record of the source, with the
monetary fields rounded at assembly. -/
structure CalculationResults where
  futureApartmentPrice : ℤ
  requiredDownPayment : ℤ
  monthsToDownPayment : ℤ
  monthsToFullPrice : ℤ
  monthlyMortgagePayment : ℤ
  totalMortgagePayment : ℤ
  mortgageOverpayment : ℤ
  recommendedMonthlySavings : ℤ
  projectedSavings : ℤ
  monthlyProjection : List MonthlyProjection

/-- calculateFuturePrice: compound growth of the price at the linearised
monthly rate. -/
def calculateFuturePrice (currentPrice annualGrowthRate : ℚ) (months : ℕ) : ℚ :=
  let monthlyRate := annualGrowthRate / 100 / 12
  currentPrice * (1 + monthlyRate) ^ months

/-- One month of the savings recurrence: interest on the balance, then the
contribution is added, then the contribution grows.  The pair is
(balance, current contribution). -/
def savingsStep (interest growth : ℚ) (st : ℚ × ℚ) : ℚ × ℚ :=
  (st.1 * (1 + interest) + st.2, st.2 * (1 + growth))

/-- The loop body of calculateSavingsWithGrowth. -/
def savingsLoop (interest growth : ℚ) : ℕ → ℚ × ℚ → ℚ × ℚ
  | 0, st => st
  | n + 1, st => savingsLoop interest growth n (savingsStep interest growth st)

/-- calculateSavingsWithGrowth of the source. -/
def calculateSavingsWithGrowth (initialMonthlySaving annualSalaryGrowthRate : ℚ)
    (months : ℕ) (initialSavings annualInterestRate : ℚ) : ℚ :=
  (savingsLoop (annualInterestRate / 100 / 12) (annualSalaryGrowthRate / 100 / 12)
    months (initialSavings, initialMonthlySaving)).1

/-- The mutable state of the months-to-target loop of the source:
totalSavings, currentSaving and currentApartmentPrice. -/
structure TargetState where
  totalSavings : ℚ
  currentSaving : ℚ
  price : ℚ
  deriving DecidableEq

/-- One iteration of the months-to-target loop body: interest, contribution,
contribution growth, price growth. -/
def targetStep (interest salaryGrowth priceGrowth : ℚ) (s : TargetState) : TargetState :=
  ⟨s.totalSavings * (1 + interest) + s.currentSaving,
   s.currentSaving * (1 + salaryGrowth),
   s.price * (1 + priceGrowth)⟩

/-- The success test of the months-to-target loop: savings meet the target,
which is the given percentage of the current price. -/
def targetHit (targetPercent : ℚ) (s : TargetState) : Prop :=
  s.price * (targetPercent / 100) ≤ s.totalSavings

instance (p : ℚ) (s : TargetState) : Decidable (targetHit p s) :=
  inferInstanceAs (Decidable (_ ≤ _))

/-- The while loop of calculateMonthsToTarget, with the remaining iteration
budget as fuel; the source starts with months = 0 and a budget of 600. -/
def targetLoop (interest salaryGrowth priceGrowth targetPercent : ℚ) :
    ℕ → ℕ → TargetState → ℤ
  | 0, _, _ => -1
  | fuel + 1, months, s =>
    let s2 := targetStep interest salaryGrowth priceGrowth s
    if targetHit targetPercent s2 then ((months + 1 : ℕ) : ℤ)
    else targetLoop interest salaryGrowth priceGrowth targetPercent fuel (months + 1) s2

/-- calculateMonthsToTarget of the source.  The first parameter is declared
but never read, exactly as in the source. -/
def calculateMonthsToTarget (targetAmount currentPrice priceGrowthRate monthlySavings
    salaryGrowthRate targetPercent initialSavings savingsInterestRate : ℚ) : ℤ :=
  let s0 : TargetState := ⟨initialSavings, monthlySavings, currentPrice⟩
  if targetHit targetPercent s0 then 0
  else
    targetLoop (savingsInterestRate / 100 / 12) (salaryGrowthRate / 100 / 12)
      (priceGrowthRate / 100 / 12) targetPercent 600 0 s0

/-- Specification-side restatement of the months-to-target search: return 0
when the initial savings already meet the month-0 target, otherwise the first
month index m with 1 <= m <= 600 whose iterated state meets the moving
target, and -1 when no such month exists. -/
def specMonthsToTarget (targetAmount currentPrice priceGrowthRate monthlySavings
    salaryGrowthRate targetPercent initialSavings savingsInterestRate : ℚ) : ℤ :=
  let step := targetStep (savingsInterestRate / 100 / 12) (salaryGrowthRate / 100 / 12)
    (priceGrowthRate / 100 / 12)
  let s0 : TargetState := ⟨initialSavings, monthlySavings, currentPrice⟩
  if targetHit targetPercent s0 then 0
  else
    match (List.range' 1 600).find? (fun m => decide (targetHit targetPercent (step^[m] s0))) with
    | some m => (m : ℤ)
    | none => -1

/-- calculateMortgagePayment of the source (annuity formula with a guard for
the zero monthly rate). -/
def calculateMortgagePayment (principal annualRate : ℚ) (termYears : ℕ) : ℚ :=
  let monthlyRate := annualRate / 100 / 12
  let numPayments := termYears * 12
  if monthlyRate = 0 then principal / (numPayments : ℚ)
  else
    principal * (monthlyRate * (1 + monthlyRate) ^ numPayments) /
      ((1 + monthlyRate) ^ numPayments - 1)

/-- The multiplier loop of calculateRecommendedSavings: the arguments are the
remaining iterations, the running multiplier and the running growth factor. -/
def multiplierLoop (monthlySalaryGrowth : ℚ) : ℕ → ℚ → ℚ → ℚ
  | 0, multiplier, _ => multiplier
  | n + 1, multiplier, growthFactor =>
    multiplierLoop monthlySalaryGrowth n (multiplier + growthFactor)
      (growthFactor * (1 + monthlySalaryGrowth))

/-- calculateRecommendedSavings of the source.  The first parameter is
declared but never read, exactly as in the source. -/
def calculateRecommendedSavings (targetAmount currentPrice priceGrowthRate
    salaryGrowthRate : ℚ) (targetMonths : ℕ) (downPaymentPercent : ℚ) : ℚ :=
  let futurePrice := calculateFuturePrice currentPrice priceGrowthRate targetMonths
  let targetDownPayment := futurePrice * (downPaymentPercent / 100)
  targetDownPayment / multiplierLoop (salaryGrowthRate / 100 / 12) targetMonths 0 1

/-- One row of the projection table as pushed by the source, from the
unrounded loop state. -/
def projPoint (dpPercent : ℚ) (month : ℕ) (s : TargetState) : MonthlyProjection :=
  let target := s.price * (dpPercent / 100)
  ⟨month, jsRound s.price, jsRound s.totalSavings, jsRound s.currentSaving,
   jsRound target, jsRound (s.totalSavings - target)⟩

/-- The loop of generateMonthlyProjection: push a row, then advance the state
by one month of the shared recurrence. -/
def projAux (interest salaryGrowth priceGrowth dpPercent : ℚ) :
    ℕ → ℕ → TargetState → List MonthlyProjection
  | 0, _, _ => []
  | n + 1, month, s =>
    projPoint dpPercent month s ::
      projAux interest salaryGrowth priceGrowth dpPercent n (month + 1)
        (targetStep interest salaryGrowth priceGrowth s)

/-- generateMonthlyProjection of the source: rows for month 0 through
maxMonths inclusive. -/
def generateMonthlyProjection (inputs : CalculatorInputs) (maxMonths : ℕ) :
    List MonthlyProjection :=
  projAux (inputs.savingsInterestRate / 100 / 12) (inputs.salaryGrowthRate / 100 / 12)
    (inputs.priceGrowthRate / 100 / 12) inputs.downPaymentPercent
    (maxMonths + 1) 0
    ⟨inputs.initialSavings, inputs.monthlySavings, inputs.apartmentPrice⟩

/-- The monthsToDownPayment intermediate of calculateAll. -/
def monthsToDownPaymentOf (inputs : CalculatorInputs) : ℤ :=
  calculateMonthsToTarget (inputs.apartmentPrice * (inputs.downPaymentPercent / 100))
    inputs.apartmentPrice inputs.priceGrowthRate inputs.monthlySavings
    inputs.salaryGrowthRate inputs.downPaymentPercent inputs.initialSavings
    inputs.savingsInterestRate

/-- The monthsToFullPrice intermediate of calculateAll. -/
def monthsToFullPriceOf (inputs : CalculatorInputs) : ℤ :=
  calculateMonthsToTarget inputs.apartmentPrice inputs.apartmentPrice
    inputs.priceGrowthRate inputs.monthlySavings inputs.salaryGrowthRate 100
    inputs.initialSavings inputs.savingsInterestRate

/-- The unrounded futureApartmentPrice intermediate of calculateAll: the
compounded price at the down-payment month when the search returned a
positive month, the current price otherwise. -/
def futureApartmentPriceQ (inputs : CalculatorInputs) : ℚ :=
  if 0 < monthsToDownPaymentOf inputs then
    calculateFuturePrice inputs.apartmentPrice inputs.priceGrowthRate
      (monthsToDownPaymentOf inputs).toNat
  else inputs.apartmentPrice

/-- The unrounded requiredDownPayment intermediate of calculateAll. -/
def requiredDownPaymentQ (inputs : CalculatorInputs) : ℚ :=
  futureApartmentPriceQ inputs * (inputs.downPaymentPercent / 100)

/-- The loanAmount intermediate of calculateAll. -/
def loanAmountQ (inputs : CalculatorInputs) : ℚ :=
  futureApartmentPriceQ inputs - requiredDownPaymentQ inputs

/-- The unrounded monthlyMortgagePayment intermediate of calculateAll. -/
def monthlyMortgagePaymentQ (inputs : CalculatorInputs) : ℚ :=
  calculateMortgagePayment (loanAmountQ inputs) inputs.mortgageRate inputs.mortgageTerm

/-- The unrounded totalMortgagePayment intermediate of calculateAll. -/
def totalMortgagePaymentQ (inputs : CalculatorInputs) : ℚ :=
  monthlyMortgagePaymentQ inputs * inputs.mortgageTerm * 12

/-- The unrounded mortgageOverpayment intermediate of calculateAll. -/
def mortgageOverpaymentQ (inputs : CalculatorInputs) : ℚ :=
  totalMortgagePaymentQ inputs - loanAmountQ inputs

/-- The unrounded recommendedMonthlySavings intermediate of calculateAll
(hard-coded 24-month horizon). -/
def recommendedMonthlySavingsQ (inputs : CalculatorInputs) : ℚ :=
  calculateRecommendedSavings (requiredDownPaymentQ inputs) inputs.apartmentPrice
    inputs.priceGrowthRate inputs.salaryGrowthRate 24 inputs.downPaymentPercent

/-- The unrounded projectedSavings intermediate of calculateAll. -/
def projectedSavingsQ (inputs : CalculatorInputs) : ℚ :=
  if 0 < monthsToDownPaymentOf inputs then
    calculateSavingsWithGrowth inputs.monthlySavings inputs.salaryGrowthRate
      (monthsToDownPaymentOf inputs).toNat inputs.initialSavings
      inputs.savingsInterestRate
  else inputs.initialSavings

/-- calculateAll of the source: the orchestration, rounding the monetary
outputs at assembly. -/
def calculateAll (inputs : CalculatorInputs) : CalculationResults :=
  { futureApartmentPrice := jsRound (futureApartmentPriceQ inputs)
    requiredDownPayment := jsRound (requiredDownPaymentQ inputs)
    monthsToDownPayment := monthsToDownPaymentOf inputs
    monthsToFullPrice := monthsToFullPriceOf inputs
    monthlyMortgagePayment := jsRound (monthlyMortgagePaymentQ inputs)
    totalMortgagePayment := jsRound (totalMortgagePaymentQ inputs)
    mortgageOverpayment := jsRound (mortgageOverpaymentQ inputs)
    recommendedMonthlySavings := jsRound (recommendedMonthlySavingsQ inputs)
    projectedSavings := jsRound (projectedSavingsQ inputs)
    monthlyProjection := generateMonthlyProjection inputs 120 }

/-- The end-to-end scenario record of the spec. -/
def scenarioInputs : CalculatorInputs :=
  ⟨10000000, 8, 150000, 5, 50000, 0, 10, 18, 20, 20⟩

/-- An input record whose apartment price is not a whole number of currency
units. -/
def fractionalPriceInputs : CalculatorInputs :=
  ⟨201/2, 0, 0, 0, 0, 0, 0, 0, 20, 1⟩

/-- An input record exhibiting a rounding mismatch in the projection table. -/
def quarterTargetInputs : CalculatorInputs :=
  ⟨5/4, 0, 0, 0, 0, 1/2, 0, 0, 20, 1⟩

/-- An input record whose month-0 projection surplus is negative. -/
def deficitInputs : CalculatorInputs :=
  ⟨1000000, 0, 0, 0, 0, 0, 0, 0, 20, 1⟩

/-- An input record whose initial savings already cover the down payment. -/
def alreadySavedInputs : CalculatorInputs :=
  ⟨1000000, 8, 100000, 5, 0, 300000, 10, 18, 20, 10⟩

/-- The while loop of calculateMonthsToTarget returns the first month index in
the remaining window whose iterated state meets the target, and -1 when the
fuel runs out first. -/
theorem targetLoop_eq_find (interest salaryGrowth priceGrowth targetPercent : ℚ)
    (s0 : TargetState) :
    ∀ fuel months : ℕ,
      targetLoop interest salaryGrowth priceGrowth targetPercent fuel months
          ((targetStep interest salaryGrowth priceGrowth)^[months] s0) =
        match (List.range' (months + 1) fuel).find?
            (fun m => decide (targetHit targetPercent
              ((targetStep interest salaryGrowth priceGrowth)^[m] s0))) with
        | some m => (m : ℤ)
        | none => -1 := by
  intro fuel
  induction fuel with
  | zero => intro months; rfl
  | succ fuel ih =>
    intro months
    have hstep : targetStep interest salaryGrowth priceGrowth
        ((targetStep interest salaryGrowth priceGrowth)^[months] s0) =
        (targetStep interest salaryGrowth priceGrowth)^[months + 1] s0 :=
      (Function.iterate_succ_apply' _ _ _).symm
    rw [List.range'_succ]
    by_cases h : targetHit targetPercent
        ((targetStep interest salaryGrowth priceGrowth)^[months + 1] s0)
    · rw [List.find?_cons_of_pos _ (by simpa using h)]
      simp only [targetLoop, hstep, if_pos h]
    · rw [List.find?_cons_of_neg _ (by simpa using h)]
      simp only [targetLoop, hstep, if_neg h]
      exact ih (months + 1)

/-- C1: calculateMonthsToTarget returns 0 when the initial savings already
meet the month-0 target, otherwise the first month index m with
1 <= m <= 600 at which the iterated balance (interest, contribution,
contribution growth, price growth each month) meets the grown target, and
-1 when no such month exists within the 600-iteration ceiling. -/
theorem calculateMonthsToTarget_eq_spec (targetAmount currentPrice priceGrowthRate
    monthlySavings salaryGrowthRate targetPercent initialSavings
    savingsInterestRate : ℚ) :
    calculateMonthsToTarget targetAmount currentPrice priceGrowthRate monthlySavings
        salaryGrowthRate targetPercent initialSavings savingsInterestRate =
      specMonthsToTarget targetAmount currentPrice priceGrowthRate monthlySavings
        salaryGrowthRate targetPercent initialSavings savingsInterestRate := by
  unfold calculateMonthsToTarget specMonthsToTarget
  by_cases h : targetHit targetPercent ⟨initialSavings, monthlySavings, currentPrice⟩
  · simp only [if_pos h]
  · simp only [if_neg h]
    have h600 := targetLoop_eq_find (savingsInterestRate / 100 / 12)
      (salaryGrowthRate / 100 / 12) (priceGrowthRate / 100 / 12) targetPercent
      ⟨initialSavings, monthlySavings, currentPrice⟩ 600 0
    simpa using h600

/-- The savings loop is the n-fold iteration of the savings step. -/
theorem savingsLoop_eq_iterate (interest growth : ℚ) :
    ∀ (n : ℕ) (st : ℚ × ℚ),
      savingsLoop interest growth n st = (savingsStep interest growth)^[n] st := by
  intro n
  induction n with
  | zero => intro st; rfl
  | succ n ih =>
    intro st
    rw [savingsLoop, Function.iterate_succ_apply, ih]

/-- C3: calculateSavingsWithGrowth is the n-fold iteration, from the pair of
the initial balance and the initial contribution, of the step that applies
interest to the balance, then adds the contribution, then grows the
contribution; at n = 0 it returns the initial balance unchanged. -/
theorem calculateSavingsWithGrowth_eq_iterate (c g : ℚ) (n : ℕ) (b i : ℚ) :
    calculateSavingsWithGrowth c g n b i =
      ((savingsStep (i / 100 / 12) (g / 100 / 12))^[n] (b, c)).1 ∧
    calculateSavingsWithGrowth c g 0 b i = b := by
  refine ⟨?_, rfl⟩
  unfold calculateSavingsWithGrowth
  rw [savingsLoop_eq_iterate]

/-- C10: neither calculateMonthsToTarget nor calculateRecommendedSavings
depends on its first parameter; the target is recomputed internally from the
price and the percent arguments. -/
theorem target_functions_ignore_first_argument (t1 t2 currentPrice priceGrowthRate
    monthlySavings salaryGrowthRate targetPercent initialSavings
    savingsInterestRate dpPercent : ℚ) (targetMonths : ℕ) :
    calculateMonthsToTarget t1 currentPrice priceGrowthRate monthlySavings
        salaryGrowthRate targetPercent initialSavings savingsInterestRate =
      calculateMonthsToTarget t2 currentPrice priceGrowthRate monthlySavings
        salaryGrowthRate targetPercent initialSavings savingsInterestRate ∧
    calculateRecommendedSavings t1 currentPrice priceGrowthRate salaryGrowthRate
        targetMonths dpPercent =
      calculateRecommendedSavings t2 currentPrice priceGrowthRate salaryGrowthRate
        targetMonths dpPercent :=
  ⟨rfl, rfl⟩

/-- C2: calculateMortgagePayment returns principal divided by the number of
payments when the monthly rate is exactly zero, and the standard annuity
formula otherwise; in particular the 1.2M/0%/10y payment is exactly 10000,
and the 1M/12%/20y payment satisfies the annuity identity exactly. -/
theorem calculateMortgagePayment_spec (P r : ℚ) (t : ℕ) :
    (r / 100 / 12 = 0 →
      calculateMortgagePayment P r t = P / ((t * 12 : ℕ) : ℚ)) ∧
    (r / 100 / 12 ≠ 0 →
      calculateMortgagePayment P r t =
        P * ((r / 100 / 12) * (1 + r / 100 / 12) ^ (t * 12)) /
          ((1 + r / 100 / 12) ^ (t * 12) - 1)) ∧
    calculateMortgagePayment 1200000 0 10 = 10000 ∧
    calculateMortgagePayment 1000000 12 20 * (((1 + 1/100 : ℚ) ^ 240 - 1) / (1/100)) =
      1000000 * (1 + 1/100 : ℚ) ^ 240 := by
  refine ⟨fun h => ?_, fun h => ?_, ?_, ?_⟩
  · unfold calculateMortgagePayment
    rw [if_pos h]
  · unfold calculateMortgagePayment
    rw [if_neg h]
  · unfold calculateMortgagePayment
    norm_num
  · have hgt : (1 : ℚ) < (1 + 1/100) ^ 240 := one_lt_pow₀ (by norm_num) (by norm_num)
    have hD : ((1 + 1/100 : ℚ) ^ 240 - 1) ≠ 0 := by linarith
    unfold calculateMortgagePayment
    rw [if_neg (by norm_num)]
    norm_num

/-- Witness for C2 at concrete inputs: both branch hypotheses are
discharged, once with a zero rate and once with a nonzero rate. -/
theorem calculateMortgagePayment_spec_witness :
    calculateMortgagePayment 1200000 0 10 = 1200000 / (((10 * 12 : ℕ) : ℚ)) ∧
    calculateMortgagePayment 1000000 12 20 =
      1000000 * ((12 / 100 / 12) * (1 + 12 / 100 / 12 : ℚ) ^ (20 * 12)) /
        ((1 + 12 / 100 / 12 : ℚ) ^ (20 * 12) - 1) :=
  ⟨(calculateMortgagePayment_spec 1200000 0 10).1 (by norm_num),
   (calculateMortgagePayment_spec 1000000 12 20).2.1 (by norm_num)⟩

/-- With a zero balance and a zero contribution the loop state stays at zero
savings while the price stays positive, so the loop exhausts its fuel and
returns -1. -/
theorem targetLoop_zero_savings (interest salaryGrowth priceGrowth targetPercent : ℚ)
    (hp : 0 < 1 + priceGrowth) (hpct : 0 < targetPercent) :
    ∀ (fuel months : ℕ) (price : ℚ), 0 < price →
      targetLoop interest salaryGrowth priceGrowth targetPercent fuel months
        ⟨0, 0, price⟩ = -1 := by
  intro fuel
  induction fuel with
  | zero => intro months price _; rfl
  | succ fuel ih =>
    intro months price hprice
    have hstep : targetStep interest salaryGrowth priceGrowth ⟨0, 0, price⟩ =
        ⟨0, 0, price * (1 + priceGrowth)⟩ := by
      simp [targetStep]
    have hpos : 0 < price * (1 + priceGrowth) := mul_pos hprice hp
    have hmiss : ¬ targetHit targetPercent ⟨0, 0, price * (1 + priceGrowth)⟩ := by
      simp only [targetHit]
      exact not_le.mpr (mul_pos hpos (by positivity))
    simp only [targetLoop, hstep, if_neg hmiss]
    exact ih (months + 1) (price * (1 + priceGrowth)) hpos

/-- C4: with zero monthly savings, zero initial savings, a positive current
price, a target percent in (0, 100] and a positive price growth rate,
calculateMonthsToTarget returns exactly -1. -/
theorem calculateMonthsToTarget_infeasible (targetAmount salaryGrowthRate
    savingsInterestRate currentPrice targetPercent priceGrowthRate : ℚ)
    (hprice : 0 < currentPrice) (hpct0 : 0 < targetPercent)
    (hpct1 : targetPercent ≤ 100) (hpg : 0 < priceGrowthRate) :
    calculateMonthsToTarget targetAmount currentPrice priceGrowthRate 0
      salaryGrowthRate targetPercent 0 savingsInterestRate = -1 := by
  unfold calculateMonthsToTarget
  have hmiss : ¬ targetHit targetPercent ⟨0, 0, currentPrice⟩ := by
    simp only [targetHit]
    exact not_le.mpr (mul_pos hprice (by positivity))
  rw [if_neg hmiss]
  have hp : 0 < 1 + priceGrowthRate / 100 / 12 := by positivity
  exact targetLoop_zero_savings _ _ _ _ hp hpct0 600 0 currentPrice hprice

/-- Witness for C4 at concrete inputs. -/
theorem calculateMonthsToTarget_infeasible_witness :
    (0 : ℚ) < 1000000 ∧ (0 : ℚ) < 20 ∧ (20 : ℚ) ≤ 100 ∧ (0 : ℚ) < 8 ∧
    calculateMonthsToTarget 200000 1000000 8 0 5 20 0 10 = -1 :=
  ⟨by norm_num, by norm_num, by norm_num, by norm_num,
   calculateMonthsToTarget_infeasible 200000 5 10 1000000 20 8
     (by norm_num) (by norm_num) (by norm_num) (by norm_num)⟩

/-- Counterexample to C9 as stated: at price 0 the future price is constant
in the month count, so strict monotonicity fails even though the growth rate
12 is positive and 0 < 1. -/
theorem calculateFuturePrice_not_strictMono_at_zero_price :
    (0 : ℚ) < 12 ∧ (0 : ℕ) < 1 ∧
    ¬ calculateFuturePrice 0 12 0 < calculateFuturePrice 0 12 1 := by
  refine ⟨by norm_num, by norm_num, ?_⟩
  unfold calculateFuturePrice
  norm_num

/-- C9 (amended): for a positive price and a fixed positive annual growth
rate, calculateFuturePrice is strictly increasing in the month count. -/
theorem calculateFuturePrice_strictMono (P r : ℚ) (n1 n2 : ℕ)
    (hP : 0 < P) (hr : 0 < r) (h : n1 < n2) :
    calculateFuturePrice P r n1 < calculateFuturePrice P r n2 := by
  unfold calculateFuturePrice
  have h1 : (1 : ℚ) < 1 + r / 100 / 12 := by
    have : (0 : ℚ) < r / 100 / 12 := by positivity
    linarith
  exact mul_lt_mul_of_pos_left (pow_lt_pow_right₀ h1 h) hP

/-- Witness for C9 (amended) at concrete inputs. -/
theorem calculateFuturePrice_strictMono_witness :
    (0 : ℚ) < 100 ∧ (0 : ℚ) < 12 ∧ 1 < 2 ∧
    calculateFuturePrice 100 12 1 < calculateFuturePrice 100 12 2 :=
  ⟨by norm_num, by norm_num, by norm_num,
   calculateFuturePrice_strictMono 100 12 1 2 (by norm_num) (by norm_num) (by norm_num)⟩

/-- The projection loop records, for each offset j below its fuel, the row
built from the j-fold iterate of the shared monthly step. -/
theorem projAux_eq_map (interest salaryGrowth priceGrowth dpPercent : ℚ) :
    ∀ (n month : ℕ) (s : TargetState),
      projAux interest salaryGrowth priceGrowth dpPercent n month s =
        (List.range n).map (fun j =>
          projPoint dpPercent (month + j)
            ((targetStep interest salaryGrowth priceGrowth)^[j] s)) := by
  intro n
  induction n with
  | zero => intro month s; rfl
  | succ n ih =>
    intro month s
    rw [List.range_succ_eq_map, List.map_cons, projAux,
      ih (month + 1) (targetStep interest salaryGrowth priceGrowth s), List.map_map]
    refine congrArg₂ _ (by simp) (List.map_congr_left fun j _ => ?_)
    simp only [Function.comp_apply, Function.iterate_succ_apply, Nat.succ_eq_add_one]
    congr 1
    omega

/-- Counterexample to C6 as stated: on an input whose apartment price is
100.5, month-0 of the projection reports the rounded price 101, not the
unmodified input price. -/
theorem generateMonthlyProjection_head_rounds_price :
    ((generateMonthlyProjection fractionalPriceInputs 120).headI.apartmentPrice : ℚ) ≠
      fractionalPriceInputs.apartmentPrice := by
  decide

/-- C6 (amended): the projection over 120 months has exactly 121 rows whose
month fields are 0 through 120 in order, and the month-0 row carries the
input price, balance and contribution rounded to whole currency units
(Math.round), with no month of growth applied. -/
theorem generateMonthlyProjection_shape (inputs : CalculatorInputs) :
    (generateMonthlyProjection inputs 120).length = 121 ∧
    (generateMonthlyProjection inputs 120).map MonthlyProjection.month =
      List.range 121 ∧
    (generateMonthlyProjection inputs 120).headI =
      ⟨0, jsRound inputs.apartmentPrice, jsRound inputs.initialSavings,
       jsRound inputs.monthlySavings,
       jsRound (inputs.apartmentPrice * (inputs.downPaymentPercent / 100)),
       jsRound (inputs.initialSavings -
         inputs.apartmentPrice * (inputs.downPaymentPercent / 100))⟩ := by
  refine ⟨?_, ?_, rfl⟩
  · unfold generateMonthlyProjection
    rw [projAux_eq_map]
    simp
  · unfold generateMonthlyProjection
    rw [projAux_eq_map, List.map_map]
    refine Eq.trans (List.map_congr_left fun j _ => ?_) (List.map_id _)
    simp [projPoint]

/-- Counterexample to C7 as stated: on an input with a fractional balance and
target, the month-0 surplus field 0 differs from the difference 1 - 0 of the
rounded totalSavings and downPaymentTarget fields. -/
theorem projection_surplus_ne_field_difference :
    (generateMonthlyProjection quarterTargetInputs 120).headI.surplus ≠
      (generateMonthlyProjection quarterTargetInputs 120).headI.totalSavings -
        (generateMonthlyProjection quarterTargetInputs 120).headI.downPaymentTarget := by
  decide

/-- C7 (amended): each row's surplus is the rounding of the exact (unrounded)
savings balance minus the exact down-payment target at that month, and the
surplus can be negative. -/
theorem projection_surplus_eq_round_exact (inputs : CalculatorInputs) :
    (generateMonthlyProjection inputs 120).map MonthlyProjection.surplus =
      (List.range 121).map (fun j =>
        jsRound
          (((targetStep (inputs.savingsInterestRate / 100 / 12)
                (inputs.salaryGrowthRate / 100 / 12)
                (inputs.priceGrowthRate / 100 / 12))^[j]
              ⟨inputs.initialSavings, inputs.monthlySavings,
               inputs.apartmentPrice⟩).totalSavings -
            ((targetStep (inputs.savingsInterestRate / 100 / 12)
                (inputs.salaryGrowthRate / 100 / 12)
                (inputs.priceGrowthRate / 100 / 12))^[j]
              ⟨inputs.initialSavings, inputs.monthlySavings,
               inputs.apartmentPrice⟩).price *
              (inputs.downPaymentPercent / 100))) ∧
    (generateMonthlyProjection deficitInputs 120).headI.surplus < 0 := by
  refine ⟨?_, by decide⟩
  unfold generateMonthlyProjection
  rw [projAux_eq_map, List.map_map]
  exact List.map_congr_left fun j _ => by simp [projPoint]

set_option maxRecDepth 100000 in
/-- C5: on the end-to-end scenario record, calculateAll yields a
monthsToDownPayment that is positive and strictly below 600, a rounded
monthlyMortgagePayment strictly above the naive non-amortised estimate
loanAmount / 240, and a strictly positive mortgageOverpayment. -/
theorem calculateAll_scenario :
    0 < (calculateAll scenarioInputs).monthsToDownPayment ∧
    (calculateAll scenarioInputs).monthsToDownPayment < 600 ∧
    loanAmountQ scenarioInputs / 240 <
      (((calculateAll scenarioInputs).monthlyMortgagePayment : ℤ) : ℚ) ∧
    0 < (calculateAll scenarioInputs).mortgageOverpayment := by
  decide

/-- C8: whenever the down-payment search returns 0 or the infeasible
sentinel -1, calculateAll still assembles its result with the rounded current
apartment price as the future price. -/
theorem calculateAll_price_unchanged_when_no_growth_month
    (inputs : CalculatorInputs)
    (h : monthsToDownPaymentOf inputs = 0 ∨ monthsToDownPaymentOf inputs = -1) :
    (calculateAll inputs).futureApartmentPrice = jsRound inputs.apartmentPrice := by
  have hnotpos : ¬ 0 < monthsToDownPaymentOf inputs := by
    rcases h with h | h <;> rw [h] <;> decide
  show jsRound (futureApartmentPriceQ inputs) = jsRound inputs.apartmentPrice
  unfold futureApartmentPriceQ
  rw [if_neg hnotpos]

/-- Witness for C8 at a concrete record whose initial savings already cover
the down payment, so the search returns 0. -/
theorem calculateAll_price_unchanged_witness :
    (monthsToDownPaymentOf alreadySavedInputs = 0 ∨
      monthsToDownPaymentOf alreadySavedInputs = -1) ∧
    (calculateAll alreadySavedInputs).futureApartmentPrice =
      jsRound alreadySavedInputs.apartmentPrice :=
  ⟨Or.inl (by decide),
   calculateAll_price_unchanged_when_no_growth_month alreadySavedInputs
     (Or.inl (by decide))⟩
